import Mathlib

/-!
Verification of the interaction skills of Agent-E
(`src/ae/core/skills/click_using_selector.py` and
`src/ae/core/skills/enter_text_using_selector.py`).

The Playwright page is modelled as an association list from selector
strings to elements (`Dom`); `document.querySelector` / Playwright's
first-match query is association-list lookup.  Every awaited Playwright
primitive can fail (timeout, protocol error): each call site is given an
`Except String Unit` (or `Except String (Option Element)`) slot in an
environment record that fixes the outcome of that particular await, so
the Lean functions are the Python control flow with the external calls
made explicit.  Python exceptions that escape a function are `Except.error`;
a function that can only `return` has a plain (non-`Except`) result type.
Observable side effects (focus, keystrokes, select_option, in-page DOM
mutation, sleeps) are collected in event lists.
-/

deriving instance DecidableEq for Except

namespace AE

/-- A DOM element as seen by the skills: its tag name, its `value`
attribute (as read by `get_attribute("value")`, absent ↦ `none`), its
`value` property, and its `text` content (used by the in-page option
branch). -/
structure Element where
  tagName : String
  valueAttr : Option String
  valueProp : String
  textContent : String
  deriving Repr, DecidableEq

/-- The page DOM: first-match selector resolution over an association
list, re-resolved at every query (nothing is cached across calls). -/
abbrev Dom : Type := List (String × Element)

/-- Lookup modelling `document.querySelector` and Playwright first-match query. -/
def querySelector (dom : Dom) (selector : String) : Option Element :=
  match dom with
  | [] => none
  | (s, e) :: rest => if s = selector then some e else querySelector rest selector

/-- Set the `value` property of the first element matching `selector`. -/
def setValueProp (dom : Dom) (selector : String) (text : String) : Dom :=
  match dom with
  | [] => []
  | (s, e) :: rest =>
      if s = selector then (s, { e with valueProp := text }) :: rest
      else (s, e) :: setValueProp rest selector text

/-- Append `s` to the `value` property of the first element matching
`selector` (the effect of keystrokes typed into the focused element). -/
def appendValueProp (dom : Dom) (selector : String) (s : String) : Dom :=
  match querySelector dom selector with
  | none => dom
  | some e => setValueProp dom selector (e.valueProp ++ s)

/-- Model of JavaScript's `String.prototype.toLowerCase` on tag names
(kernel-computable, unlike `String.toLower`). -/
def lowerString (s : String) : String := String.mk (s.data.map Char.toLower)

/-! ## Click pipeline (`click_using_selector.py`) -/

/-- Timeout (ms) of the hard attached-state wait in `do_click`
(`page.wait_for_selector(selector, state="attached", timeout=2000)`). -/
def attachedTimeoutMs : Nat := 2000

/-- Timeout (ms) of the soft scroll-into-view wait
(`element.scroll_into_view_if_needed(timeout=200)`). -/
def scrollTimeoutMs : Nat := 200

/-- Timeout (ms) of the soft visibility wait
(`element.wait_for_element_state("visible", timeout=200)`). -/
def visibleTimeoutMs : Nat := 200

/-- Events produced by the in-page click script (`js_code` in
`perform_javascript_click`). -/
inductive JsEvent where
  /-- The script ran `element.target = "_self"` on an anchor. -/
  | setTargetSelf (selector : String)
  /-- The script ran `element.click()`. -/
  | domClick (selector : String)
  /-- The script ran `parent.value = element.value` in its option branch. -/
  | parentValueSet (v : String)
  /-- The script dispatched a bubbling change event on the parent. -/
  | changeDispatched
  deriving Repr, DecidableEq

/-- Host-side observable actions of the click pipeline. -/
inductive ClickEvent where
  /-- Slept `wait_before_execution` seconds before the pipeline. -/
  | sleepBefore (seconds : Nat)
  /-- Ran `element.focus()` before the JavaScript click. -/
  | hostFocus
  /-- Ran `parent_element.select_option(value=element_value)`. -/
  | hostSelectOption (value : Option String)
  /-- An event performed inside the page by the click script. -/
  | script (e : JsEvent)
  deriving Repr, DecidableEq

/-- Outcomes of the awaited Playwright calls made by one `do_click` run.
`Except.error m` means that await raised an exception with message `m`;
for calls whose result is data about the element, `Except.ok ()` means
the call succeeded and returned the element-derived value. -/
structure ClickEnv where
  /-- Call `page.wait_for_selector(selector, state="attached", timeout=2000)`:
  raised (timeout), or returned `None`, or returned an element handle. -/
  waitForSelector : Except String (Option Element)
  /-- Call `element.scroll_into_view_if_needed(timeout=200)`. -/
  scrollIntoViewResult : Except String Unit
  /-- Call `element.wait_for_element_state("visible", timeout=200)`. -/
  waitVisibleResult : Except String Unit
  /-- Call `element.evaluate("element => element.tagName.toLowerCase()")`. -/
  tagNameEvalResult : Except String Unit
  /-- Call `element.get_attribute("value")`. -/
  getAttributeResult : Except String Unit
  /-- Call `element.evaluate_handle("element => element.parentNode")`. -/
  parentHandleResult : Except String Unit
  /-- Call `parent_element.select_option(value=element_value)`. -/
  selectOptionResult : Except String Unit
  /-- Call `element.focus()`. -/
  focusResult : Except String Unit
  /-- Whether the `page.evaluate(js_code, selector)` round-trip in
  `perform_javascript_click` succeeded. -/
  jsEvalResult : Except String Unit
  deriving Repr, DecidableEq

/-- The string returned by the in-page script when its own
`document.querySelector` re-resolution finds nothing. -/
def jsNotFoundMsg (selector : String) : String :=
  "perform_javascript_click: Element with selector " ++ selector ++ " not found"

/-- The string returned by the in-page script's option branch. -/
def jsOptionMsg (text : String) : String :=
  "Select menu option: " ++ text ++ " selected"

/-- The string returned by the in-page script's generic branch. -/
def jsClickedMsg (selector : String) : String :=
  "Executed JavaScript Click on element with selector: " ++ selector

/-- The in-page click script (`js_code` in `perform_javascript_click`):
it receives only the selector, re-resolves it with
`document.querySelector`, and returns a message plus the page-side
events it dispatched. -/
def jsClickScript (dom : Dom) (selector : String) : String × List JsEvent :=
  match querySelector dom selector with
  | none => (jsNotFoundMsg selector, [])
  | some element =>
      if lowerString element.tagName = "option" then
        (jsOptionMsg element.textContent,
         [JsEvent.parentValueSet element.valueProp, JsEvent.changeDispatched])
      else if lowerString element.tagName = "a" then
        (jsClickedMsg selector,
         [JsEvent.setTargetSelf selector, JsEvent.domClick selector])
      else
        (jsClickedMsg selector, [JsEvent.domClick selector])

/-- Model of `perform_javascript_click`: evaluates the click script on the page;
its own `try/except` catches an exception from `page.evaluate`, logs it
and falls through, so the function never raises.  Returns the script's
result (or `none` when the evaluation raised) and the page-side events. -/
def perform_javascript_click (env : ClickEnv) (dom : Dom) (selector : String) :
    Option String × List JsEvent :=
  match env.jsEvalResult with
  | Except.error _ => (none, [])
  | Except.ok _ =>
      (some (jsClickScript dom selector).1, (jsClickScript dom selector).2)

/-- The failure string of `do_click`'s catch-all `except` branch. -/
def clickFailureMsg (selector : String) : String :=
  "Unable to click element with selector: \"" ++ selector ++
  "\" since the selector is invalid. Proceed by retrieving DOM again."

/-- The success string of `do_click`'s generic branch. -/
def clickSuccessMsg (selector : String) : String :=
  "Element with selector: \"" ++ selector ++ "\" clicked."

/-- Rendering of a Python value that is `None` or a string inside an
f-string (`get_attribute` returns `None` when the attribute is absent). -/
def pyStr : Option String → String
  | none => "None"
  | some s => s

/-- The string returned by `do_click`'s option branch. -/
def selectOptionMsg (value : Option String) : String :=
  "Select menu option \"" ++ pyStr value ++ "\" selected"

/-- What one `do_click` run produces: the returned message, the
observable actions, and a record of the soft-wait failures that the
source absorbs with bare `except: pass` (kept visible here, discarded by
the code). -/
structure ClickOutcome where
  message : String
  events : List ClickEvent
  softLog : List String
  deriving Repr, DecidableEq

/-- The soft-wait failures absorbed by the two `try/except: pass` blocks
after the element is attached. -/
def softLogOf (env : ClickEnv) : List String :=
  (match env.scrollIntoViewResult with
   | Except.error m => ["scroll_into_view_if_needed failed: " ++ m]
   | Except.ok _ => []) ++
  (match env.waitVisibleResult with
   | Except.error m => ["wait_for_element_state visible failed: " ++ m]
   | Except.ok _ => [])

/-- The `asyncio.sleep(wait_before_execution)` performed when the caller
asked for a pre-wait (`if wait_before_execution > 0`). -/
def sleepPrefix (seconds : Nat) : List ClickEvent :=
  if seconds > 0 then [ClickEvent.sleepBefore seconds] else []

/-- Model of `do_click`: the whole pipeline runs inside one `try`, whose `except`
converts any exception into `clickFailureMsg`; the two soft waits have
inner `try/except: pass` blocks, so their outcomes never reach the outer
handler.  The function always returns a string, never raises. -/
def do_click (env : ClickEnv) (dom : Dom) (selector : String)
    (wait_before_execution : Nat := 0) : ClickOutcome :=
  let pre := sleepPrefix wait_before_execution
  match env.waitForSelector with
  | Except.error _ =>
      { message := clickFailureMsg selector, events := pre, softLog := [] }
  | Except.ok none =>
      { message := clickFailureMsg selector, events := pre, softLog := [] }
  | Except.ok (some element) =>
      let log := softLogOf env
      match env.tagNameEvalResult with
      | Except.error _ =>
          { message := clickFailureMsg selector, events := pre, softLog := log }
      | Except.ok _ =>
          if lowerString element.tagName = "option" then
            match env.getAttributeResult with
            | Except.error _ =>
                { message := clickFailureMsg selector, events := pre, softLog := log }
            | Except.ok _ =>
                match env.parentHandleResult with
                | Except.error _ =>
                    { message := clickFailureMsg selector, events := pre, softLog := log }
                | Except.ok _ =>
                    match env.selectOptionResult with
                    | Except.error _ =>
                        { message := clickFailureMsg selector, events := pre, softLog := log }
                    | Except.ok _ =>
                        { message := selectOptionMsg element.valueAttr,
                          events := pre ++ [ClickEvent.hostSelectOption element.valueAttr],
                          softLog := log }
          else
            match env.focusResult with
            | Except.error _ =>
                { message := clickFailureMsg selector, events := pre, softLog := log }
            | Except.ok _ =>
                { message := clickSuccessMsg selector,
                  events := pre ++ ClickEvent.hostFocus ::
                    (perform_javascript_click env dom selector).2.map ClickEvent.script,
                  softLog := log }

/-- The `click` facade: raises `ValueError` when no page is open
(modelled as `Except.error`), otherwise highlights, runs `do_click`,
notifies, and returns `do_click`'s message. -/
def click (page : Option (ClickEnv × Dom)) (selector : String)
    (wait_before_execution : Nat := 0) : Except String String :=
  match page with
  | none => Except.error "No active page found. OpenURL command opens a new page."
  | some (env, dom) =>
      Except.ok (do_click env dom selector wait_before_execution).message

/-! ## Text-entry pipeline (`enter_text_using_selector.py`) -/

/-- The `EnterTextEntry` dataclass: one fill instruction. -/
structure EnterTextEntry where
  query_selector : String
  text : String
  deriving Repr, DecidableEq

/-- Host- and page-side observable actions of the text-entry pipeline. -/
inductive TextEvent where
  /-- Ran `elem.focus()`. -/
  | focusElement
  /-- Ran `page.keyboard.type(s, delay=delayMs)` (default delay 0). -/
  | keyboardType (s : String) (delayMs : Nat)
  /-- The `custom_fill_element` in-page script assigned
  `document.querySelector(selector).value = text`. -/
  | fillValueSet (selector : String) (text : String)
  /-- Ran `asyncio.sleep(seconds)`. -/
  | sleepSeconds (seconds : Nat)
  deriving Repr, DecidableEq

/-- Outcomes of the awaited Playwright calls made by one `do_entertext`
run (same reading as `ClickEnv`). -/
structure EnterEnv where
  /-- Whether `page.query_selector(selector)` completed; on `ok` its
  result is the page-context lookup `querySelector dom selector`. -/
  querySelectorResult : Except String Unit
  /-- Call `elem.focus()` in the keyboard-fill branch. -/
  focusResult : Except String Unit
  /-- Call `page.keyboard.type(text_to_enter, delay=2)`. -/
  keyboardTypeResult : Except String Unit
  /-- Whether the `page.evaluate` round-trip of `custom_fill_element`
  completed (the script itself may still throw on a null lookup). -/
  fillEvalResult : Except String Unit
  /-- Call `elem.focus()` after the fill. -/
  focusAfterResult : Except String Unit
  /-- Call `page.keyboard.type(" ")` (the trailing nudge). -/
  trailingTypeResult : Except String Unit
  deriving Repr, DecidableEq

/-- Model of `custom_fill_element`: evaluates an in-page script that sets
`document.querySelector(selector).value = text_to_enter`.  When the
selector matches nothing the script dereferences `null` and the
evaluation raises; otherwise the first matching element's value property
becomes exactly `text_to_enter`. -/
def custom_fill_element (dom : Dom) (selector : String) (text_to_enter : String) :
    Except String (Dom × List TextEvent) :=
  match querySelector dom selector with
  | none =>
      Except.error ("TypeError: Cannot set properties of null (setting value)")
  | some _ =>
      Except.ok (setValueProp dom selector text_to_enter,
                 [TextEvent.fillValueSet selector text_to_enter])

/-- The not-found string returned (not raised) by `do_entertext`. -/
def enterNotFoundMsg (selector : String) : String :=
  "Error: Selector " ++ selector ++ " not found. Unable to continue."

/-- The catch-all failure string of `do_entertext`. -/
def enterErrorMsg (selector : String) (err : String) : String :=
  "Error entering text in selector " ++ selector ++ ". Error: " ++ err

/-- The success string of `do_entertext`. -/
def enterSuccessMsg (selector : String) (text : String) : String :=
  "Success. Text \"" ++ text ++ "\" set successfully in the element with selector " ++ selector

/-- What one `do_entertext` run produces: the returned message, the
observable actions in order, and the final page DOM. -/
structure TextOutcome where
  message : String
  events : List TextEvent
  dom : Dom
  deriving Repr

/-- The fill mechanism chosen by `use_keyboard_fill` inside
`do_entertext`'s `try` block: keyboard typing (focus then
`page.keyboard.type(text, delay=2)`) or `custom_fill_element`.  Returns
the DOM after the fill (when it succeeded, `Except.ok`), paired with the
events that happened before any exception. -/
def fillStep (env : EnterEnv) (dom : Dom) (selector : String)
    (text_to_enter : String) (use_keyboard_fill : Bool) :
    Except String Dom × List TextEvent :=
  if use_keyboard_fill then
    match env.focusResult with
    | Except.error m => (Except.error m, [])
    | Except.ok _ =>
        match env.keyboardTypeResult with
        | Except.error m => (Except.error m, [TextEvent.focusElement])
        | Except.ok _ =>
            (Except.ok (appendValueProp dom selector text_to_enter),
             [TextEvent.focusElement, TextEvent.keyboardType text_to_enter 2])
  else
    match env.fillEvalResult with
    | Except.error m => (Except.error m, [])
    | Except.ok _ =>
        match custom_fill_element dom selector text_to_enter with
        | Except.error m => (Except.error m, [])
        | Except.ok (dom2, evs) => (Except.ok dom2, evs)

/-- Model of `do_entertext`: queries the selector; `None` is reported as
`enterNotFoundMsg` (returned, not raised); then the chosen fill
mechanism runs, and on its success the element is unconditionally
re-focused, one space keystroke is typed and the pipeline sleeps one
second before returning `enterSuccessMsg`.  Any exception inside the
`try` is converted to `enterErrorMsg`; the function always returns. -/
def do_entertext (env : EnterEnv) (dom : Dom) (selector : String)
    (text_to_enter : String) (use_keyboard_fill : Bool := false) : TextOutcome :=
  match env.querySelectorResult with
  | Except.error m =>
      { message := enterErrorMsg selector m, events := [], dom := dom }
  | Except.ok _ =>
      match querySelector dom selector with
      | none =>
          { message := enterNotFoundMsg selector, events := [], dom := dom }
      | some _ =>
          match fillStep env dom selector text_to_enter use_keyboard_fill with
          | (Except.error m, evs) =>
              { message := enterErrorMsg selector m, events := evs, dom := dom }
          | (Except.ok dom2, evs) =>
              match env.focusAfterResult with
              | Except.error m =>
                  { message := enterErrorMsg selector m, events := evs, dom := dom2 }
              | Except.ok _ =>
                  match env.trailingTypeResult with
                  | Except.error m =>
                      { message := enterErrorMsg selector m,
                        events := evs ++ [TextEvent.focusElement], dom := dom2 }
                  | Except.ok _ =>
                      { message := enterSuccessMsg selector text_to_enter,
                        events := evs ++ [TextEvent.focusElement,
                                          TextEvent.keyboardType " " 0,
                                          TextEvent.sleepSeconds 1],
                        dom := appendValueProp dom2 selector " " }

/-- The string `entertext` returns when no page is open (it returns this
outcome string; it does not raise). -/
def enterNoPageMsg : String :=
  "Error: No active page found. OpenURL command opens a new page."

/-- The `entertext` facade: when no active page exists it returns
`enterNoPageMsg` as an ordinary outcome string; otherwise it highlights,
runs `do_entertext` (with its default fill mode), notifies, and returns
the message.  `Except.error` would model a raised exception; `entertext`
never produces one. -/
def entertext (page : Option (EnterEnv × Dom)) (entry : EnterTextEntry) :
    Except String String :=
  match page with
  | none => Except.ok enterNoPageMsg
  | some (env, dom) =>
      Except.ok (do_entertext env dom entry.query_selector entry.text).message

/-- Worker of `bulk_enter_text`: sequentially calls `entertext` on each
entry, appending `{"query_selector": ..., "result": ...}` to the
accumulated results; `pageOf i` is the page state the `i`-th call
observes (each call re-acquires the current page).  A raised exception
would propagate (`Except.error`) and abort the batch. -/
def bulk_enter_text_go (pageOf : Nat → Option (EnterEnv × Dom)) (i : Nat) :
    List EnterTextEntry → Except String (List (String × String))
  | [] => Except.ok []
  | entry :: rest =>
      match entertext (pageOf i) entry with
      | Except.error m => Except.error m
      | Except.ok result =>
          match bulk_enter_text_go pageOf (i + 1) rest with
          | Except.error m => Except.error m
          | Except.ok results => Except.ok ((entry.query_selector, result) :: results)

/-- Model of `bulk_enter_text`: the sequential batch over all entries. -/
def bulk_enter_text (pageOf : Nat → Option (EnterEnv × Dom))
    (entries : List EnterTextEntry) : Except String (List (String × String)) :=
  bulk_enter_text_go pageOf 0 entries

/-- The message `entertext` returns (it always returns one). -/
def entertextMsg (page : Option (EnterEnv × Dom)) (entry : EnterTextEntry) : String :=
  match page with
  | none => enterNoPageMsg
  | some (env, dom) =>
      (do_entertext env dom entry.query_selector entry.text).message

/-- Spec-side description of the batch result (for comparison with
`bulk_enter_text`): one `(selector, result)` pair per entry, in input
order, the result of the `i`-th entry computed from that entry's own
`entertext` call alone. -/
def bulkResultsSpec (pageOf : Nat → Option (EnterEnv × Dom)) (i : Nat) :
    List EnterTextEntry → List (String × String)
  | [] => []
  | entry :: rest =>
      (entry.query_selector, entertextMsg (pageOf i) entry) ::
        bulkResultsSpec pageOf (i + 1) rest

/-! ## Sample pages and environments (used to instantiate the theorems) -/

/-- A generic clickable element. -/
def buttonElem : Element :=
  { tagName := "button", valueAttr := none, valueProp := "", textContent := "Go" }

/-- An element of a select menu. -/
def optionElem : Element :=
  { tagName := "option", valueAttr := some "red", valueProp := "red", textContent := "Red" }

/-- An anchor element. -/
def anchorElem : Element :=
  { tagName := "a", valueAttr := none, valueProp := "", textContent := "link" }

/-- A text input holding a previous value. -/
def inputElem : Element :=
  { tagName := "input", valueAttr := none, valueProp := "old", textContent := "" }

/-- A click run in which every Playwright call succeeds and the
attached-state wait resolves to `e`. -/
def allOkClickEnv (e : Element) : ClickEnv :=
  { waitForSelector := Except.ok (some e), scrollIntoViewResult := Except.ok (),
    waitVisibleResult := Except.ok (), tagNameEvalResult := Except.ok (),
    getAttributeResult := Except.ok (), parentHandleResult := Except.ok (),
    selectOptionResult := Except.ok (), focusResult := Except.ok (),
    jsEvalResult := Except.ok () }

/-- A click run whose attached-state wait times out. -/
def timeoutClickEnv : ClickEnv :=
  { allOkClickEnv buttonElem with
      waitForSelector := Except.error "Timeout 2000ms exceeded" }

/-- A click run in which the `page.evaluate` of the click script raises. -/
def jsThrowClickEnv : ClickEnv :=
  { allOkClickEnv buttonElem with
      jsEvalResult := Except.error "Execution context was destroyed" }

/-- A text-entry run in which every Playwright call succeeds. -/
def allOkEnterEnv : EnterEnv :=
  { querySelectorResult := Except.ok (), focusResult := Except.ok (),
    keyboardTypeResult := Except.ok (), fillEvalResult := Except.ok (),
    focusAfterResult := Except.ok (), trailingTypeResult := Except.ok () }

/-! ## Helper lemmas -/

/-- Updating the matched element's `value` property leaves it the first
match of the selector, now carrying exactly the written text. -/
theorem querySelector_setValueProp : ∀ (dom : Dom) (selector t : String) (e : Element),
    querySelector dom selector = some e →
    querySelector (setValueProp dom selector t) selector = some { e with valueProp := t }
  | [], _, _, _, h => by simp [querySelector] at h
  | (s, el) :: rest, selector, t, e, h => by
      by_cases hs : s = selector
      · simp [querySelector, hs] at h
        simp [setValueProp, querySelector, hs, h]
      · simp [querySelector, hs] at h
        simp [setValueProp, querySelector, hs]
        exact querySelector_setValueProp rest selector t e h

/-- `entertext` always returns its message in the `Except.ok` channel. -/
theorem entertext_eq_ok (page : Option (EnterEnv × Dom)) (entry : EnterTextEntry) :
    entertext page entry = Except.ok (entertextMsg page entry) := by
  cases page with
  | none => rfl
  | some p => obtain ⟨env, dom⟩ := p; rfl

/-- The batch worker never raises and produces exactly the spec-side
result list, from any starting index. -/
theorem bulk_enter_text_go_eq (pageOf : Nat → Option (EnterEnv × Dom)) :
    ∀ (entries : List EnterTextEntry) (i : Nat),
    bulk_enter_text_go pageOf i entries = Except.ok (bulkResultsSpec pageOf i entries)
  | [], _ => rfl
  | entry :: rest, i => by
      simp [bulk_enter_text_go, entertext_eq_ok, bulk_enter_text_go_eq pageOf rest (i + 1),
            bulkResultsSpec]

/-- The spec-side batch result has one pair per entry, in input order. -/
theorem bulkResultsSpec_shape (pageOf : Nat → Option (EnterEnv × Dom)) :
    ∀ (entries : List EnterTextEntry) (i : Nat),
    (bulkResultsSpec pageOf i entries).length = entries.length ∧
    (bulkResultsSpec pageOf i entries).map Prod.fst =
      entries.map EnterTextEntry.query_selector
  | [], _ => ⟨rfl, rfl⟩
  | entry :: rest, i => by
      obtain ⟨h1, h2⟩ := bulkResultsSpec_shape pageOf rest (i + 1)
      exact ⟨by simp [bulkResultsSpec, h1], by simp [bulkResultsSpec, h2]⟩

/-! ## Claims -/

/-- C1: for every selector that never reaches the attached state within
the wait budget (given an active page), both `click` and `entertext`
return a failure-describing outcome string in the ordinary return
channel (`Except.ok`) and never propagate a raised exception
(`Except.error`) to the caller. -/
theorem C1_unattached_selector_fails_without_raising
    (cenv : ClickEnv) (cdom : Dom) (eenv : EnterEnv) (edom : Dom)
    (selector text : String) (w : Nat)
    (hattach : (∃ m, cenv.waitForSelector = Except.error m) ∨
               cenv.waitForSelector = Except.ok none)
    (hq : eenv.querySelectorResult = Except.ok ())
    (hmiss : querySelector edom selector = none) :
    click (some (cenv, cdom)) selector w = Except.ok (clickFailureMsg selector) ∧
    entertext (some (eenv, edom)) { query_selector := selector, text := text } =
      Except.ok (enterNotFoundMsg selector) := by
  constructor
  · rcases hattach with ⟨m, hm⟩ | hnone
    · simp [click, do_click, hm]
    · simp [click, do_click, hnone]
  · simp [entertext, do_entertext, hq, hmiss]

/-- Witness for C1: a timed-out attached wait on the click side and an
empty page on the text side. -/
theorem C1_unattached_witness :
    click (some (timeoutClickEnv, [])) "#missing" 0 =
      Except.ok (clickFailureMsg "#missing") ∧
    entertext (some (allOkEnterEnv, [])) { query_selector := "#missing", text := "x" } =
      Except.ok (enterNotFoundMsg "#missing") :=
  C1_unattached_selector_fails_without_raising timeoutClickEnv [] allOkEnterEnv []
    "#missing" "x" 0 (Or.inl ⟨"Timeout 2000ms exceeded", rfl⟩) rfl rfl

/-- C3 counterexample: with no active page, `entertext` does not raise;
it returns the outcome string (so the claim that both facade entry
points raise, and return no outcome string, is false for `entertext`). -/
theorem C3_entertext_no_page_returns_counterexample :
    entertext none { query_selector := "#u", text := "alice" } =
      Except.ok enterNoPageMsg := rfl

/-- C3 (amended): with no active page, `click` raises a `ValueError`
while `entertext` returns the error outcome string; only `click`'s
no-page condition propagates as a raised error. -/
theorem C3_no_page_click_raises_entertext_returns
    (selector : String) (w : Nat) (entry : EnterTextEntry) :
    click none selector w =
      Except.error "No active page found. OpenURL command opens a new page." ∧
    entertext none entry = Except.ok enterNoPageMsg :=
  ⟨rfl, rfl⟩

/-- C4: `bulk_enter_text` never raises and returns exactly one
`(query_selector, result)` pair per input entry, in input order, each
entry's result computed from its own `entertext` call alone — so a
failing entry neither aborts, reorders nor filters the batch. -/
theorem C4_bulk_one_result_per_entry_in_order
    (pageOf : Nat → Option (EnterEnv × Dom)) (entries : List EnterTextEntry) :
    bulk_enter_text pageOf entries = Except.ok (bulkResultsSpec pageOf 0 entries) ∧
    (bulkResultsSpec pageOf 0 entries).length = entries.length ∧
    (bulkResultsSpec pageOf 0 entries).map Prod.fst =
      entries.map EnterTextEntry.query_selector := by
  obtain ⟨h1, h2⟩ := bulkResultsSpec_shape pageOf entries 0
  exact ⟨bulk_enter_text_go_eq pageOf entries 0, h1, h2⟩

/-- C2 counterexample: a click in which the in-page script evaluation
raises still returns the success message, which is not the failure
outcome string — so the claim that such a click returns a
failure-describing string rather than a success message is false. -/
theorem C2_script_throw_still_success_counterexample :
    (do_click jsThrowClickEnv [("#b", buttonElem)] "#b" 0).message =
      clickSuccessMsg "#b" ∧
    clickSuccessMsg "#b" ≠ clickFailureMsg "#b" := by
  exact ⟨rfl, by decide⟩

/-- C2 (amended): when the in-page script evaluation raises during the
click, `perform_javascript_click` catches and logs the exception itself
(so nothing propagates and no page-side click events occur), but
`do_click` then returns the generic success string, not a failure
outcome string. -/
theorem C2_script_throw_swallowed_success_message
    (env : ClickEnv) (dom : Dom) (selector : String) (e : Element) (m : String) (w : Nat)
    (hw : env.waitForSelector = Except.ok (some e))
    (htag : env.tagNameEvalResult = Except.ok ())
    (hnotopt : lowerString e.tagName ≠ "option")
    (hfocus : env.focusResult = Except.ok ())
    (hjs : env.jsEvalResult = Except.error m) :
    perform_javascript_click env dom selector = (none, []) ∧
    (do_click env dom selector w).message = clickSuccessMsg selector ∧
    (do_click env dom selector w).events = sleepPrefix w ++ [ClickEvent.hostFocus] := by
  refine ⟨?_, ?_, ?_⟩ <;>
    simp [perform_javascript_click, do_click, hw, htag, hnotopt, hfocus, hjs]

/-- Witness for C2's amended theorem at a concrete throwing evaluation. -/
theorem C2_script_throw_witness :
    perform_javascript_click jsThrowClickEnv [("#b", buttonElem)] "#b" = (none, []) ∧
    (do_click jsThrowClickEnv [("#b", buttonElem)] "#b" 0).message =
      clickSuccessMsg "#b" ∧
    (do_click jsThrowClickEnv [("#b", buttonElem)] "#b" 0).events =
      sleepPrefix 0 ++ [ClickEvent.hostFocus] :=
  C2_script_throw_swallowed_success_message jsThrowClickEnv [("#b", buttonElem)] "#b"
    buttonElem "Execution context was destroyed" 0 rfl rfl (by decide) rfl rfl

/-- C5: a click whose resolved element has tag name `option` reads the
option's `value` attribute, performs exactly one host action — the
select-option operation on the option's parent with that value, never a
raw click event — and returns the string naming that value. -/
theorem C5_option_click_selects_parent_option
    (env : ClickEnv) (dom : Dom) (selector : String) (e : Element) (w : Nat)
    (hw : env.waitForSelector = Except.ok (some e))
    (htag : env.tagNameEvalResult = Except.ok ())
    (hopt : lowerString e.tagName = "option")
    (hattr : env.getAttributeResult = Except.ok ())
    (hparent : env.parentHandleResult = Except.ok ())
    (hsel : env.selectOptionResult = Except.ok ()) :
    (do_click env dom selector w).message = selectOptionMsg e.valueAttr ∧
    (do_click env dom selector w).events =
      sleepPrefix w ++ [ClickEvent.hostSelectOption e.valueAttr] ∧
    (∀ s, ClickEvent.script (JsEvent.domClick s) ∉ (do_click env dom selector w).events) ∧
    ClickEvent.hostFocus ∉ (do_click env dom selector w).events := by
  have hev : (do_click env dom selector w).events =
      sleepPrefix w ++ [ClickEvent.hostSelectOption e.valueAttr] := by
    simp [do_click, hw, htag, hopt, hattr, hparent, hsel]
  refine ⟨?_, hev, ?_, ?_⟩
  · simp [do_click, hw, htag, hopt, hattr, hparent, hsel]
  · intro s
    rw [hev]
    simp [sleepPrefix]
  · rw [hev]
    simp [sleepPrefix]

/-- Witness for C5 on a concrete option element with value `red`. -/
theorem C5_option_witness :
    (do_click (allOkClickEnv optionElem) [("#o", optionElem)] "#o" 0).message =
      selectOptionMsg optionElem.valueAttr ∧
    (do_click (allOkClickEnv optionElem) [("#o", optionElem)] "#o" 0).events =
      sleepPrefix 0 ++ [ClickEvent.hostSelectOption optionElem.valueAttr] ∧
    (∀ s, ClickEvent.script (JsEvent.domClick s) ∉
      (do_click (allOkClickEnv optionElem) [("#o", optionElem)] "#o" 0).events) ∧
    ClickEvent.hostFocus ∉
      (do_click (allOkClickEnv optionElem) [("#o", optionElem)] "#o" 0).events :=
  C5_option_click_selects_parent_option (allOkClickEnv optionElem) [("#o", optionElem)]
    "#o" optionElem 0 rfl rfl (by decide) rfl rfl rfl

/-- C6: the in-page click script depends only on what the page-context
re-resolution of the selector yields (it receives the selector, not an
element handle, so two page states agreeing on the selector give the
same script behavior), and on an anchor element it sets
`target = "_self"` before dispatching the click. -/
theorem C6_js_script_reresolves_and_anchors_self_target
    (dom dom2 : Dom) (selector : String) (e : Element)
    (hagree : querySelector dom selector = querySelector dom2 selector)
    (he : querySelector dom selector = some e)
    (ha : lowerString e.tagName = "a") :
    jsClickScript dom selector = jsClickScript dom2 selector ∧
    (jsClickScript dom selector).2 =
      [JsEvent.setTargetSelf selector, JsEvent.domClick selector] := by
  constructor
  · unfold jsClickScript
    rw [hagree]
  · have hnotopt : lowerString e.tagName ≠ "option" := by rw [ha]; decide
    simp [jsClickScript, he, hnotopt, ha]

/-- Witness for C6: an anchor re-resolved identically on two pages. -/
theorem C6_anchor_witness :
    jsClickScript [("#l", anchorElem)] "#l" =
      jsClickScript [("#x", buttonElem), ("#l", anchorElem)] "#l" ∧
    (jsClickScript [("#l", anchorElem)] "#l").2 =
      [JsEvent.setTargetSelf "#l", JsEvent.domClick "#l"] :=
  C6_js_script_reresolves_and_anchors_self_target
    [("#l", anchorElem)] [("#x", buttonElem), ("#l", anchorElem)] "#l" anchorElem
    (by decide) (by decide) (by decide)

/-- C7: whenever the fill mechanism succeeds (in either mode), the
pipeline unconditionally re-focuses the element, dispatches exactly one
additional space keystroke, and sleeps one second, in that order, before
returning the success string; no space keystroke occurs during the fill
itself. -/
theorem C7_trailing_space_nudge_after_fill
    (env : EnterEnv) (dom : Dom) (selector text : String) (kb : Bool) (e : Element)
    (hq : env.querySelectorResult = Except.ok ())
    (he : querySelector dom selector = some e)
    (hfocus : env.focusResult = Except.ok ())
    (hkb : env.keyboardTypeResult = Except.ok ())
    (hfill : env.fillEvalResult = Except.ok ())
    (hfa : env.focusAfterResult = Except.ok ())
    (htt : env.trailingTypeResult = Except.ok ()) :
    ∃ fillEvents,
      (do_entertext env dom selector text kb).events =
        fillEvents ++ [TextEvent.focusElement, TextEvent.keyboardType " " 0,
                       TextEvent.sleepSeconds 1] ∧
      (do_entertext env dom selector text kb).message = enterSuccessMsg selector text ∧
      TextEvent.keyboardType " " 0 ∉ fillEvents := by
  cases kb with
  | true =>
      refine ⟨[TextEvent.focusElement, TextEvent.keyboardType text 2], ?_, ?_, ?_⟩ <;>
        simp [do_entertext, fillStep, hq, he, hfocus, hkb, hfa, htt]
  | false =>
      refine ⟨[TextEvent.fillValueSet selector text], ?_, ?_, ?_⟩ <;>
        simp [do_entertext, fillStep, custom_fill_element, hq, he, hfill, hfa, htt]

/-- Witness for C7 on a concrete input element, direct-fill mode. -/
theorem C7_trailing_witness :
    ∃ fillEvents,
      (do_entertext allOkEnterEnv [("#u", inputElem)] "#u" "alice" false).events =
        fillEvents ++ [TextEvent.focusElement, TextEvent.keyboardType " " 0,
                       TextEvent.sleepSeconds 1] ∧
      (do_entertext allOkEnterEnv [("#u", inputElem)] "#u" "alice" false).message =
        enterSuccessMsg "#u" "alice" ∧
      TextEvent.keyboardType " " 0 ∉ fillEvents :=
  C7_trailing_space_nudge_after_fill allOkEnterEnv [("#u", inputElem)] "#u" "alice"
    false inputElem rfl rfl rfl rfl rfl rfl rfl

/-- C8: the mode flag `use_keyboard_fill` defaults to the direct
assignment mode (`false`); in that mode the element's value is set by
the in-page script to exactly the target text (no keystroke event
carries the text), and the only keystroke dispatched in the whole run is
the mandatory trailing space. -/
theorem C8_default_direct_fill_sets_value
    (env : EnterEnv) (dom : Dom) (selector text : String) (e : Element)
    (hq : env.querySelectorResult = Except.ok ())
    (he : querySelector dom selector = some e)
    (hfill : env.fillEvalResult = Except.ok ())
    (hfa : env.focusAfterResult = Except.ok ())
    (htt : env.trailingTypeResult = Except.ok ()) :
    do_entertext env dom selector text = do_entertext env dom selector text false ∧
    (do_entertext env dom selector text).events =
      [TextEvent.fillValueSet selector text, TextEvent.focusElement,
       TextEvent.keyboardType " " 0, TextEvent.sleepSeconds 1] ∧
    querySelector (setValueProp dom selector text) selector =
      some { e with valueProp := text } ∧
    (∀ s d, TextEvent.keyboardType s d ∈ (do_entertext env dom selector text).events →
      s = " " ∧ d = 0) := by
  have hev : (do_entertext env dom selector text).events =
      [TextEvent.fillValueSet selector text, TextEvent.focusElement,
       TextEvent.keyboardType " " 0, TextEvent.sleepSeconds 1] := by
    simp [do_entertext, fillStep, custom_fill_element, hq, he, hfill, hfa, htt]
  refine ⟨rfl, hev, querySelector_setValueProp dom selector text e he, ?_⟩
  intro s d hmem
  rw [hev] at hmem
  simp at hmem
  exact ⟨hmem.1, hmem.2⟩

/-- Witness for C8 on a concrete input element. -/
theorem C8_direct_fill_witness :
    do_entertext allOkEnterEnv [("#u", inputElem)] "#u" "alice" =
      do_entertext allOkEnterEnv [("#u", inputElem)] "#u" "alice" false ∧
    (do_entertext allOkEnterEnv [("#u", inputElem)] "#u" "alice").events =
      [TextEvent.fillValueSet "#u" "alice", TextEvent.focusElement,
       TextEvent.keyboardType " " 0, TextEvent.sleepSeconds 1] ∧
    querySelector (setValueProp [("#u", inputElem)] "#u" "alice") "#u" =
      some { inputElem with valueProp := "alice" } ∧
    (∀ s d, TextEvent.keyboardType s d ∈
        (do_entertext allOkEnterEnv [("#u", inputElem)] "#u" "alice").events →
      s = " " ∧ d = 0) :=
  C8_default_direct_fill_sets_value allOkEnterEnv [("#u", inputElem)] "#u" "alice"
    inputElem rfl rfl rfl rfl rfl

/-- C9: the post-attachment scroll-into-view and visibility waits are
each bounded by 200 ms, and their outcomes (success or failure) are
absorbed silently: the message and the performed actions of `do_click`
do not depend on them, so execution continues to the click and the soft
failure never surfaces in the outcome. -/
theorem C9_soft_waits_bounded_and_absorbed
    (env : ClickEnv) (dom : Dom) (selector : String) (w : Nat)
    (r1 r2 : Except String Unit) :
    scrollTimeoutMs = 200 ∧ visibleTimeoutMs = 200 ∧
    (do_click { env with scrollIntoViewResult := r1, waitVisibleResult := r2 }
        dom selector w).message = (do_click env dom selector w).message ∧
    (do_click { env with scrollIntoViewResult := r1, waitVisibleResult := r2 }
        dom selector w).events = (do_click env dom selector w).events := by
  obtain ⟨wfs, sc, vis, tag, ga, ph, so, fo, js⟩ := env
  refine ⟨rfl, rfl, ?_, ?_⟩ <;>
  · cases wfs with
    | error m => rfl
    | ok oe =>
        cases oe with
        | none => rfl
        | some e =>
            cases tag with
            | error m => rfl
            | ok u =>
                by_cases hopt : lowerString e.tagName = "option"
                · simp only [do_click, hopt, if_true]
                  cases ga with
                  | error m => rfl
                  | ok u2 =>
                      cases ph with
                      | error m => rfl
                      | ok u3 => cases so with
                        | error m => rfl
                        | ok u4 => rfl
                · simp only [do_click, hopt, if_false]
                  cases fo with
                  | error m => rfl
                  | ok u2 => rfl

/-- C10: a generic click whose host-side attached wait succeeded but
whose in-page re-resolution finds no element returns the script's
not-found message from the evaluation, dispatches no page-side event,
and yet `do_click` returns the success string — the success message does
not guarantee a click was dispatched. -/
theorem C10_success_message_despite_script_not_found
    (env : ClickEnv) (dom : Dom) (selector : String) (e : Element) (w : Nat)
    (hw : env.waitForSelector = Except.ok (some e))
    (htag : env.tagNameEvalResult = Except.ok ())
    (hnotopt : lowerString e.tagName ≠ "option")
    (hfocus : env.focusResult = Except.ok ())
    (hjs : env.jsEvalResult = Except.ok ())
    (hmiss : querySelector dom selector = none) :
    perform_javascript_click env dom selector = (some (jsNotFoundMsg selector), []) ∧
    (do_click env dom selector w).message = clickSuccessMsg selector ∧
    (do_click env dom selector w).events = sleepPrefix w ++ [ClickEvent.hostFocus] := by
  refine ⟨?_, ?_, ?_⟩ <;>
    simp [perform_javascript_click, jsClickScript, do_click, hw, htag, hnotopt,
          hfocus, hjs, hmiss]

/-- Witness for C10: the element detached between the wait and the
script (page empty at script time). -/
theorem C10_stale_page_witness :
    perform_javascript_click (allOkClickEnv buttonElem) [] "#b" =
      (some (jsNotFoundMsg "#b"), []) ∧
    (do_click (allOkClickEnv buttonElem) [] "#b" 0).message = clickSuccessMsg "#b" ∧
    (do_click (allOkClickEnv buttonElem) [] "#b" 0).events =
      sleepPrefix 0 ++ [ClickEvent.hostFocus] :=
  C10_success_message_despite_script_not_found (allOkClickEnv buttonElem) [] "#b"
    buttonElem 0 rfl rfl (by decide) rfl rfl rfl

end AE
